import Mathlib

/-!
Verification of the subgraph check command handler
(src/command/subgraph/check.rs).

The handler `Check::run` is embedded shallowly: the external
collaborators (authenticated client provider, schema file descriptor
reader, and the two remote check operations) are an explicit
environment of functions, and the observable effects of a run are
recorded as an event trace.  `Check.run` returns the event trace
together with the `Result` value the Rust function returns.
-/

namespace Rover

/-- Graph reference `name@variant` (external type `GraphRef`; only its
fields and display form are relevant here). -/
structure GraphRef where
  name : String
  variant : String
  deriving DecidableEq, Repr

/-- Display form of a graph reference, `name@variant`, as used by the
diagnostic line. -/
def GraphRef.display (g : GraphRef) : String :=
  g.name ++ "@" ++ g.variant

/-- Modelled from the spec: `GitContext` is ambient metadata about the
invoking repository and commit, supplied by the caller environment and
opaque to this component (passed through unmodified).  The concrete
type lives in the external `rover_client` crate, not under src/. -/
structure GitContext where
  branch : Option String
  author : Option String
  commit : Option String
  remote_url : Option String
  deriving DecidableEq, Repr

/-- Modelled from the spec: `ValidationPeriod` is a duration-like value
parsed from human strings; its concrete representation lives in the
external `rover_client` crate.  Here it is an opaque value object. -/
structure ValidationPeriod where
  totalHours : Int
  deriving DecidableEq, Repr

/-- The check configuration carried in both request payloads
(external type `rover_client::shared::CheckConfig`).  The `f64`
percentage is modelled as a rational number; this component does no
arithmetic on it, only pass-through. -/
structure CheckConfig where
  query_count_threshold : Option Int
  query_count_threshold_percentage : Option ℚ
  validation_period : Option ValidationPeriod
  deriving DecidableEq, Repr

/-- Schema source descriptor: a literal file path or the stdin
sentinel (external type `FileDescriptorType` from
`crate::utils::parsers`). -/
inductive FileDescriptorType where
  | stdin
  | file (path : String)
  deriving DecidableEq, Repr

/-- The error type of the handler (`RoverError` behind the `Result`
alias).  The variants mirror the error taxonomy of the collaborators:
authentication, schema-source input, threshold validation, and remote
transport failures. -/
inductive RoverError where
  | authError (msg : String)
  | inputError (msg : String)
  | validationError (msg : String)
  | transportError (msg : String)
  deriving DecidableEq, Repr

/-- Opaque response payload of the synchronous remote operation
(external type `SubgraphCheckResponse`). -/
structure CheckResponse where
  payload : String
  deriving DecidableEq, Repr

/-- Opaque acknowledgment payload of the asynchronous remote operation
(workflow handle for later polling). -/
structure AsyncCheckResponse where
  workflowId : String
  deriving DecidableEq, Repr

/-- Opaque authenticated Studio client handle. -/
structure StudioClient where
  id : String
  deriving DecidableEq, Repr

/-- Request payload of the synchronous remote operation
(`rover_client::operations::subgraph::check::SubgraphCheckInput`),
with the field order of the construction site in `Check::run`. -/
structure SubgraphCheckInput where
  graph_ref : GraphRef
  proposed_schema : String
  subgraph : String
  git_context : GitContext
  config : CheckConfig
  deriving DecidableEq, Repr

/-- Request payload of the asynchronous remote operation
(`rover_client::operations::subgraph::async_check::SubgraphCheckAsyncInput`),
with the field order of the construction site in `Check::run`. -/
structure SubgraphCheckAsyncInput where
  graph_ref : GraphRef
  subgraph : String
  git_context : GitContext
  proposed_schema : String
  config : CheckConfig
  deriving DecidableEq, Repr

/-- The two `RoverOutput` variants this handler can return. -/
inductive RoverOutput where
  | CheckResponse (res : CheckResponse)
  | AsyncCheckResponse (res : AsyncCheckResponse)
  deriving DecidableEq, Repr

/-- The parsed command structure `Check` (struct `Check` in
check.rs), after structopt parsing has already validated the
thresholds. -/
structure Check where
  graph : GraphRef
  subgraph : String
  profile_name : String
  schema : FileDescriptorType
  query_count_threshold : Option Int
  query_percentage_threshold : Option ℚ
  validation_period : Option ValidationPeriod
  asynchronous : Bool
  deriving DecidableEq, Repr

/-- Observable effects of one invocation of `Check::run`, in program
order: client acquisition, schema-source resolution, the stderr
diagnostic line, and the two remote operations. -/
inductive Event where
  | getClient (profile : String)
  | readSchema (fd : FileDescriptorType)
  | eprintLine (line : String)
  | syncCall (input : SubgraphCheckInput)
  | asyncCall (input : SubgraphCheckAsyncInput)
  deriving DecidableEq, Repr

/-- Whether an event is an outbound remote check call. -/
def Event.isRemoteCall : Event → Bool
  | .syncCall _ => true
  | .asyncCall _ => true
  | _ => false

/-- Whether an event is a write to the user-facing diagnostic stream. -/
def Event.isEprint : Event → Bool
  | .eprintLine _ => true
  | _ => false

/-- Whether an event is the client acquisition step. -/
def Event.isGetClient : Event → Bool
  | .getClient _ => true
  | _ => false

/-- Whether an event is the schema-source resolution step. -/
def Event.isReadSchema : Event → Bool
  | .readSchema _ => true
  | _ => false

/-- Number of outbound remote check calls recorded in a trace. -/
def remoteCallCount (tr : List Event) : Nat :=
  (tr.filter Event.isRemoteCall).length

/-- The mode-independent content of a remote check request: the common
fields of the synchronous and asynchronous payloads. -/
structure CheckPayload where
  graph_ref : GraphRef
  subgraph : String
  proposed_schema : String
  git_context : GitContext
  config : CheckConfig
  deriving DecidableEq, Repr

/-- The payload carried by a remote call event, if the event is one. -/
def Event.callPayload : Event → Option CheckPayload
  | .syncCall i =>
    some ⟨i.graph_ref, i.subgraph, i.proposed_schema, i.git_context, i.config⟩
  | .asyncCall i =>
    some ⟨i.graph_ref, i.subgraph, i.proposed_schema, i.git_context, i.config⟩
  | _ => none

/-- The external collaborators of `Check::run`: client provider
(`StudioClientConfig::get_authenticated_client`), schema reader
(`FileDescriptorType::read_file_descriptor`), and the two remote
operations (`check::run` and `async_check::run`). -/
structure Env where
  get_authenticated_client : String → Except RoverError StudioClient
  read_file_descriptor : FileDescriptorType → Except RoverError String
  subgraph_check_run :
    SubgraphCheckInput → StudioClient → Except RoverError CheckResponse
  subgraph_async_check_run :
    SubgraphCheckAsyncInput → StudioClient → Except RoverError AsyncCheckResponse

/-- The asynchronous request payload assembled in the `asynchronous`
branch of `Check::run`, field for field. -/
def Check.asyncInput (self : Check) (git_context : GitContext)
    (proposed_schema : String) : SubgraphCheckAsyncInput :=
  { graph_ref := self.graph
    subgraph := self.subgraph
    git_context := git_context
    proposed_schema := proposed_schema
    config :=
      { query_count_threshold := self.query_count_threshold
        query_count_threshold_percentage := self.query_percentage_threshold
        validation_period := self.validation_period } }

/-- The synchronous request payload assembled in the `else` branch of
`Check::run`, field for field. -/
def Check.syncInput (self : Check) (git_context : GitContext)
    (proposed_schema : String) : SubgraphCheckInput :=
  { graph_ref := self.graph
    proposed_schema := proposed_schema
    subgraph := self.subgraph
    git_context := git_context
    config :=
      { query_count_threshold := self.query_count_threshold
        query_count_threshold_percentage := self.query_percentage_threshold
        validation_period := self.validation_period } }

/-- The one diagnostic line `Check::run` writes to stderr before
dispatch. -/
def Check.diagnosticLine (self : Check) : String :=
  "Checking the proposed schema for subgraph " ++ self.subgraph
    ++ " against " ++ self.graph.display

/-- Shallow embedding of `Check::run`.  The `?` operator of the Rust
source becomes a match on the collaborator result; each effect is
appended to the trace at the point the source performs it, and the
pair returned is (trace, Result value). -/
def Check.run (self : Check) (env : Env) (git_context : GitContext) :
    List Event × Except RoverError RoverOutput :=
  match env.get_authenticated_client self.profile_name with
  | .error e => ([Event.getClient self.profile_name], .error e)
  | .ok client =>
    match env.read_file_descriptor self.schema with
    | .error e =>
      ([Event.getClient self.profile_name, Event.readSchema self.schema],
        .error e)
    | .ok proposed_schema =>
      let pre : List Event :=
        [Event.getClient self.profile_name, Event.readSchema self.schema,
          Event.eprintLine self.diagnosticLine]
      if self.asynchronous then
        match env.subgraph_async_check_run
            (self.asyncInput git_context proposed_schema) client with
        | .error e =>
          (pre ++ [Event.asyncCall (self.asyncInput git_context proposed_schema)],
            .error e)
        | .ok res =>
          (pre ++ [Event.asyncCall (self.asyncInput git_context proposed_schema)],
            .ok (RoverOutput.AsyncCheckResponse res))
      else
        match env.subgraph_check_run
            (self.syncInput git_context proposed_schema) client with
        | .error e =>
          (pre ++ [Event.syncCall (self.syncInput git_context proposed_schema)],
            .error e)
        | .ok res =>
          (pre ++ [Event.syncCall (self.syncInput git_context proposed_schema)],
            .ok (RoverOutput.CheckResponse res))

/-- Modelled from the spec: standard error message of
`parse_query_count_threshold` (the parser lives in
`crate::utils::parsers`, which is not under src/). -/
def countThresholdErrorMsg : String :=
  "The number of executions must be a non-negative integer."

/-- Modelled from the spec: standard error message of
`parse_query_percentage_threshold` (the parser lives in
`crate::utils::parsers`, which is not under src/). -/
def percentageThresholdErrorMsg : String :=
  "Valid numbers are in the range 0 <= x <= 100."

/-- Modelled from the spec: `parse_query_count_threshold` from
`crate::utils::parsers` is not under src/.  Per the spec, a count, if
present, must be a non-negative integer; a negative count fails with a
ValidationError. -/
def parse_query_count_threshold (c : Int) : Except RoverError Int :=
  if 0 ≤ c then Except.ok c
  else Except.error (RoverError.validationError countThresholdErrorMsg)

/-- Modelled from the spec: `parse_query_percentage_threshold` from
`crate::utils::parsers` is not under src/.  Per the spec, a
percentage, if present, must satisfy 0 ≤ p ≤ 100; values outside
that range fail with a ValidationError. -/
def parse_query_percentage_threshold (p : ℚ) : Except RoverError ℚ :=
  if 0 ≤ p ∧ p ≤ 100 then Except.ok p
  else Except.error (RoverError.validationError percentageThresholdErrorMsg)

/-- Exhaustive characterization of `Check.run`: client acquisition
fails, or schema resolution fails, or the run dispatches to exactly
one of the two remote operations according to the asynchronous flag. -/
theorem Check.run_cases (self : Check) (env : Env) (git : GitContext) :
    (∃ e, env.get_authenticated_client self.profile_name = Except.error e ∧
      self.run env git = ([Event.getClient self.profile_name], Except.error e)) ∨
    (∃ client e, env.get_authenticated_client self.profile_name = Except.ok client ∧
      env.read_file_descriptor self.schema = Except.error e ∧
      self.run env git =
        ([Event.getClient self.profile_name, Event.readSchema self.schema],
          Except.error e)) ∨
    (∃ client s, env.get_authenticated_client self.profile_name = Except.ok client ∧
      env.read_file_descriptor self.schema = Except.ok s ∧
      ((self.asynchronous = true ∧
        self.run env git =
          ([Event.getClient self.profile_name, Event.readSchema self.schema,
            Event.eprintLine self.diagnosticLine,
            Event.asyncCall (self.asyncInput git s)],
            (env.subgraph_async_check_run (self.asyncInput git s) client).map
              RoverOutput.AsyncCheckResponse)) ∨
       (self.asynchronous = false ∧
        self.run env git =
          ([Event.getClient self.profile_name, Event.readSchema self.schema,
            Event.eprintLine self.diagnosticLine,
            Event.syncCall (self.syncInput git s)],
            (env.subgraph_check_run (self.syncInput git s) client).map
              RoverOutput.CheckResponse)))) := by
  cases hgc : env.get_authenticated_client self.profile_name with
  | error e =>
    exact Or.inl ⟨e, rfl, by simp [Check.run, hgc]⟩
  | ok client =>
    cases hrd : env.read_file_descriptor self.schema with
    | error e =>
      exact Or.inr (Or.inl ⟨client, e, rfl, rfl, by simp [Check.run, hgc, hrd]⟩)
    | ok s =>
      refine Or.inr (Or.inr ⟨client, s, rfl, rfl, ?_⟩)
      cases ha : self.asynchronous with
      | true =>
        refine Or.inl ⟨rfl, ?_⟩
        cases hc : env.subgraph_async_check_run (self.asyncInput git s) client with
        | error e => simp [Check.run, hgc, hrd, ha, hc, Except.map]
        | ok r => simp [Check.run, hgc, hrd, ha, hc, Except.map]
      | false =>
        refine Or.inr ⟨rfl, ?_⟩
        cases hc : env.subgraph_check_run (self.syncInput git s) client with
        | error e => simp [Check.run, hgc, hrd, ha, hc, Except.map]
        | ok r => simp [Check.run, hgc, hrd, ha, hc, Except.map]

/-- Claim C1: for every invocation of Check::run that reaches dispatch
and succeeds, the outcome variant matches the requested mode: with the
asynchronous flag set the result is the AsyncCheckResponse variant and
never CheckResponse, and with the flag unset it is the CheckResponse
variant and never AsyncCheckResponse; there is no fallback between
modes. -/
theorem check_run_outcome_matches_mode (self : Check) (env : Env)
    (git : GitContext) (out : RoverOutput)
    (h : (self.run env git).2 = Except.ok out) :
    (self.asynchronous = true →
      ∃ r, out = RoverOutput.AsyncCheckResponse r) ∧
    (self.asynchronous = false →
      ∃ r, out = RoverOutput.CheckResponse r) := by
  rcases Check.run_cases self env git with
    ⟨e, hgc, hrun⟩ | ⟨client, e, hgc, hrd, hrun⟩ | ⟨client, s, hgc, hrd, hbr⟩
  · rw [hrun] at h; exact absurd h (by simp)
  · rw [hrun] at h; exact absurd h (by simp)
  · rcases hbr with ⟨ha, hrun⟩ | ⟨ha, hrun⟩
    · rw [hrun] at h
      cases hc : env.subgraph_async_check_run (self.asyncInput git s) client with
      | error e => rw [hc] at h; exact absurd h (by simp [Except.map])
      | ok r =>
        rw [hc] at h
        simp only [Except.map] at h
        cases h
        constructor
        · intro _; exact ⟨r, rfl⟩
        · intro hfalse; rw [ha] at hfalse; cases hfalse
    · rw [hrun] at h
      cases hc : env.subgraph_check_run (self.syncInput git s) client with
      | error e => rw [hc] at h; exact absurd h (by simp [Except.map])
      | ok r =>
        rw [hc] at h
        simp only [Except.map] at h
        cases h
        constructor
        · intro htrue; rw [ha] at htrue; cases htrue
        · intro _; exact ⟨r, rfl⟩

/-- Witness for C1: a concrete synchronous invocation succeeds and its
outcome is the CheckResponse variant. -/
theorem check_run_outcome_matches_mode_witness :
    (Check.run
      ⟨⟨"my-graph", "prod"⟩, "accounts", "default", FileDescriptorType.stdin,
        none, none, none, false⟩
      ⟨fun _ => Except.ok ⟨"client"⟩, fun _ => Except.ok "sdl",
        fun _ _ => Except.ok ⟨"ok"⟩, fun _ _ => Except.ok ⟨"wf"⟩⟩
      ⟨none, none, none, none⟩).2 =
      Except.ok (RoverOutput.CheckResponse ⟨"ok"⟩) ∧
    ∃ r, RoverOutput.CheckResponse ⟨"ok"⟩ = RoverOutput.CheckResponse r :=
  ⟨rfl,
    (check_run_outcome_matches_mode
      ⟨⟨"my-graph", "prod"⟩, "accounts", "default", FileDescriptorType.stdin,
        none, none, none, false⟩
      ⟨fun _ => Except.ok ⟨"client"⟩, fun _ => Except.ok "sdl",
        fun _ _ => Except.ok ⟨"ok"⟩, fun _ _ => Except.ok ⟨"wf"⟩⟩
      ⟨none, none, none, none⟩
      (RoverOutput.CheckResponse ⟨"ok"⟩) rfl).2 rfl⟩

/-- Claim C2: every invocation of Check::run records at most one
outbound remote check call, every successful invocation records
exactly one, and any remote call is the final observable effect (no
retry, no second request after it). -/
theorem check_run_single_remote_call (self : Check) (env : Env)
    (git : GitContext) :
    remoteCallCount (self.run env git).1 ≤ 1 ∧
    ((∃ out, (self.run env git).2 = Except.ok out) →
      remoteCallCount (self.run env git).1 = 1) ∧
    (∀ e ∈ (self.run env git).1.dropLast, Event.isRemoteCall e = false) := by
  rcases Check.run_cases self env git with
    ⟨e, hgc, hrun⟩ | ⟨client, e, hgc, hrd, hrun⟩ | ⟨client, s, hgc, hrd, hbr⟩
  · rw [hrun]
    refine ⟨by simp [remoteCallCount, Event.isRemoteCall], ?_, by simp⟩
    rintro ⟨out, hout⟩; exact absurd hout (by simp)
  · rw [hrun]
    refine ⟨by simp [remoteCallCount, Event.isRemoteCall], ?_, ?_⟩
    · rintro ⟨out, hout⟩; exact absurd hout (by simp)
    · intro e he
      simp only [List.dropLast] at he
      simp only [List.mem_singleton] at he
      subst he; rfl
  · rcases hbr with ⟨ha, hrun⟩ | ⟨ha, hrun⟩ <;> rw [hrun] <;>
      exact ⟨by simp [remoteCallCount, Event.isRemoteCall],
        fun _ => by simp [remoteCallCount, Event.isRemoteCall],
        by simp [List.dropLast, Event.isRemoteCall]⟩

/-- Witness for C2: a concrete successful synchronous invocation
records exactly one remote call. -/
theorem check_run_single_remote_call_witness :
    remoteCallCount
      ((Check.run
        ⟨⟨"my-graph", "prod"⟩, "accounts", "default", FileDescriptorType.stdin,
          none, none, none, false⟩
        ⟨fun _ => Except.ok ⟨"client"⟩, fun _ => Except.ok "sdl",
          fun _ _ => Except.ok ⟨"ok"⟩, fun _ _ => Except.ok ⟨"wf"⟩⟩
        ⟨none, none, none, none⟩).1) = 1 :=
  (check_run_single_remote_call
    ⟨⟨"my-graph", "prod"⟩, "accounts", "default", FileDescriptorType.stdin,
      none, none, none, false⟩
    ⟨fun _ => Except.ok ⟨"client"⟩, fun _ => Except.ok "sdl",
      fun _ _ => Except.ok ⟨"ok"⟩, fun _ _ => Except.ok ⟨"wf"⟩⟩
    ⟨none, none, none, none⟩).2.1 ⟨RoverOutput.CheckResponse ⟨"ok"⟩, rfl⟩

/-- Claim C3: when client acquisition succeeds but the schema source
names a nonexistent file, schema-source resolution fails with an input
error, Check::run returns that error, and dispatch is never reached:
the trace records no remote call. -/
theorem check_run_missing_file_no_dispatch (self : Check) (env : Env)
    (git : GitContext) (client : StudioClient) (msg : String)
    (hgc : env.get_authenticated_client self.profile_name = Except.ok client)
    (hrd : env.read_file_descriptor self.schema =
      Except.error (RoverError.inputError msg)) :
    (self.run env git).2 = Except.error (RoverError.inputError msg) ∧
    remoteCallCount (self.run env git).1 = 0 := by
  have h : self.run env git =
      ([Event.getClient self.profile_name, Event.readSchema self.schema],
        Except.error (RoverError.inputError msg)) := by
    simp [Check.run, hgc, hrd]
  rw [h]
  exact ⟨rfl, by simp [remoteCallCount, Event.isRemoteCall]⟩

/-- Witness for C3: a concrete invocation whose schema file does not
exist fails with the input error and records no remote call. -/
theorem check_run_missing_file_no_dispatch_witness :
    (Check.run
      ⟨⟨"my-graph", "prod"⟩, "accounts", "default",
        FileDescriptorType.file "no-such-file.graphql",
        none, none, none, false⟩
      ⟨fun _ => Except.ok ⟨"client"⟩,
        fun _ => Except.error (RoverError.inputError "file not found"),
        fun _ _ => Except.ok ⟨"ok"⟩, fun _ _ => Except.ok ⟨"wf"⟩⟩
      ⟨none, none, none, none⟩).2 =
      Except.error (RoverError.inputError "file not found") ∧
    remoteCallCount
      ((Check.run
        ⟨⟨"my-graph", "prod"⟩, "accounts", "default",
          FileDescriptorType.file "no-such-file.graphql",
          none, none, none, false⟩
        ⟨fun _ => Except.ok ⟨"client"⟩,
          fun _ => Except.error (RoverError.inputError "file not found"),
          fun _ _ => Except.ok ⟨"ok"⟩, fun _ _ => Except.ok ⟨"wf"⟩⟩
        ⟨none, none, none, none⟩).1) = 0 :=
  check_run_missing_file_no_dispatch
    ⟨⟨"my-graph", "prod"⟩, "accounts", "default",
      FileDescriptorType.file "no-such-file.graphql",
      none, none, none, false⟩
    ⟨fun _ => Except.ok ⟨"client"⟩,
      fun _ => Except.error (RoverError.inputError "file not found"),
      fun _ _ => Except.ok ⟨"ok"⟩, fun _ _ => Except.ok ⟨"wf"⟩⟩
    ⟨none, none, none, none⟩ ⟨"client"⟩ "file not found" rfl rfl

/-- Claim C4: threshold validation accepts exactly the in-range
values: a percentage p is accepted unchanged iff 0 ≤ p ≤ 100 and
otherwise fails with a validation error; a count c is accepted
unchanged iff it is non-negative and otherwise fails with a validation
error. -/
theorem validate_thresholds_range (p : ℚ) (c : Int) :
    (0 ≤ p ∧ p ≤ 100 →
      parse_query_percentage_threshold p = Except.ok p) ∧
    (¬(0 ≤ p ∧ p ≤ 100) →
      parse_query_percentage_threshold p =
        Except.error (RoverError.validationError percentageThresholdErrorMsg)) ∧
    (0 ≤ c → parse_query_count_threshold c = Except.ok c) ∧
    (c < 0 →
      parse_query_count_threshold c =
        Except.error (RoverError.validationError countThresholdErrorMsg)) := by
  refine ⟨?_, ?_, ?_, ?_⟩
  · intro h; simp [parse_query_percentage_threshold, h]
  · intro h; simp [parse_query_percentage_threshold, h]
  · intro h; simp [parse_query_count_threshold, h]
  · intro h
    simp [parse_query_count_threshold, not_le.mpr h]

/-- Witness for C4: the in-range percentage 50 is accepted unchanged
and the negative count -3 is rejected with a validation error. -/
theorem validate_thresholds_range_witness :
    parse_query_percentage_threshold 50 = Except.ok 50 ∧
    parse_query_count_threshold (-3) =
      Except.error (RoverError.validationError countThresholdErrorMsg) :=
  ⟨(validate_thresholds_range 50 (-3)).1 (by norm_num),
    (validate_thresholds_range 50 (-3)).2.2.2 (by norm_num)⟩

/-- Counterexample for C5: on a concrete dispatching invocation, the
trace records client acquisition at index 0 and schema-source
resolution at index 1, so schema-source resolution does NOT happen
before the authenticated client is acquired, refuting the claimed
dependency order. -/
theorem check_run_order_counterexample :
    remoteCallCount
      ((Check.run
        ⟨⟨"my-graph", "prod"⟩, "accounts", "default", FileDescriptorType.stdin,
          none, none, none, false⟩
        ⟨fun _ => Except.ok ⟨"client"⟩, fun _ => Except.ok "sdl",
          fun _ _ => Except.ok ⟨"ok"⟩, fun _ _ => Except.ok ⟨"wf"⟩⟩
        ⟨none, none, none, none⟩).1) = 1 ∧
    ((Check.run
        ⟨⟨"my-graph", "prod"⟩, "accounts", "default", FileDescriptorType.stdin,
          none, none, none, false⟩
        ⟨fun _ => Except.ok ⟨"client"⟩, fun _ => Except.ok "sdl",
          fun _ _ => Except.ok ⟨"ok"⟩, fun _ _ => Except.ok ⟨"wf"⟩⟩
        ⟨none, none, none, none⟩).1).findIdx Event.isGetClient = 0 ∧
    ((Check.run
        ⟨⟨"my-graph", "prod"⟩, "accounts", "default", FileDescriptorType.stdin,
          none, none, none, false⟩
        ⟨fun _ => Except.ok ⟨"client"⟩, fun _ => Except.ok "sdl",
          fun _ _ => Except.ok ⟨"ok"⟩, fun _ _ => Except.ok ⟨"wf"⟩⟩
        ⟨none, none, none, none⟩).1).findIdx Event.isReadSchema = 1 ∧
    ¬(((Check.run
        ⟨⟨"my-graph", "prod"⟩, "accounts", "default", FileDescriptorType.stdin,
          none, none, none, false⟩
        ⟨fun _ => Except.ok ⟨"client"⟩, fun _ => Except.ok "sdl",
          fun _ _ => Except.ok ⟨"ok"⟩, fun _ _ => Except.ok ⟨"wf"⟩⟩
        ⟨none, none, none, none⟩).1).findIdx Event.isReadSchema <
      ((Check.run
        ⟨⟨"my-graph", "prod"⟩, "accounts", "default", FileDescriptorType.stdin,
          none, none, none, false⟩
        ⟨fun _ => Except.ok ⟨"client"⟩, fun _ => Except.ok "sdl",
          fun _ _ => Except.ok ⟨"ok"⟩, fun _ _ => Except.ok ⟨"wf"⟩⟩
        ⟨none, none, none, none⟩).1).findIdx Event.isGetClient) := by
  refine ⟨?_, ?_, ?_, ?_⟩ <;> decide

/-- Claim C5 (amended): Check::run performs its steps in the order
client acquisition, then schema-source resolution, then the diagnostic
line, then strategy dispatch, then result wrapping; threshold and
config validation happen earlier, at argument-parsing time.  In
particular the authenticated client is acquired before the schema
source is resolved. -/
theorem check_run_dependency_order (self : Check) (env : Env)
    (git : GitContext)
    (h : 1 ≤ remoteCallCount (self.run env git).1) :
    ∃ e, Event.isRemoteCall e = true ∧
      (self.run env git).1 =
        [Event.getClient self.profile_name, Event.readSchema self.schema,
          Event.eprintLine self.diagnosticLine, e] := by
  rcases Check.run_cases self env git with
    ⟨e, hgc, hrun⟩ | ⟨client, e, hgc, hrd, hrun⟩ | ⟨client, s, hgc, hrd, hbr⟩
  · rw [hrun] at h
    exact absurd h (by simp [remoteCallCount, Event.isRemoteCall])
  · rw [hrun] at h
    exact absurd h (by simp [remoteCallCount, Event.isRemoteCall])
  · rcases hbr with ⟨ha, hrun⟩ | ⟨ha, hrun⟩
    · exact ⟨Event.asyncCall (self.asyncInput git s), rfl, by rw [hrun]⟩
    · exact ⟨Event.syncCall (self.syncInput git s), rfl, by rw [hrun]⟩

/-- Witness for C5 (amended): the concrete dispatching invocation of
the counterexample has the trace client acquisition, schema
resolution, diagnostic line, remote call, in that order. -/
theorem check_run_dependency_order_witness :
    ∃ e, Event.isRemoteCall e = true ∧
      (Check.run
        ⟨⟨"g", "v"⟩, "sub", "default", FileDescriptorType.stdin,
          none, none, none, false⟩
        ⟨fun _ => Except.ok ⟨"client"⟩, fun _ => Except.ok "sdl",
          fun _ _ => Except.ok ⟨"ok"⟩, fun _ _ => Except.ok ⟨"wf"⟩⟩
        ⟨none, none, none, none⟩).1 =
        [Event.getClient "default", Event.readSchema FileDescriptorType.stdin,
          Event.eprintLine
            (Check.diagnosticLine
              ⟨⟨"g", "v"⟩, "sub", "default", FileDescriptorType.stdin,
                none, none, none, false⟩),
          e] :=
  check_run_dependency_order
    ⟨⟨"g", "v"⟩, "sub", "default", FileDescriptorType.stdin,
      none, none, none, false⟩
    ⟨fun _ => Except.ok ⟨"client"⟩, fun _ => Except.ok "sdl",
      fun _ _ => Except.ok ⟨"ok"⟩, fun _ _ => Except.ok ⟨"wf"⟩⟩
    ⟨none, none, none, none⟩ (by decide)

/-- Claim C6: for every invocation that dispatches, the request
payload handed to the remote operation carries exactly the parsed
inputs unchanged: the graph reference, subgraph name, proposed schema
text, both thresholds, the validation period, and the caller-supplied
git context, and exactly one remote call is recorded. -/
theorem check_run_payload_passthrough (self : Check) (env : Env)
    (git : GitContext) (client : StudioClient) (s : String)
    (hgc : env.get_authenticated_client self.profile_name = Except.ok client)
    (hrd : env.read_file_descriptor self.schema = Except.ok s) :
    (self.asynchronous = false →
      Event.syncCall
        { graph_ref := self.graph, proposed_schema := s,
          subgraph := self.subgraph, git_context := git,
          config :=
            { query_count_threshold := self.query_count_threshold
              query_count_threshold_percentage := self.query_percentage_threshold
              validation_period := self.validation_period } }
        ∈ (self.run env git).1 ∧
      remoteCallCount (self.run env git).1 = 1) ∧
    (self.asynchronous = true →
      Event.asyncCall
        { graph_ref := self.graph, subgraph := self.subgraph,
          git_context := git, proposed_schema := s,
          config :=
            { query_count_threshold := self.query_count_threshold
              query_count_threshold_percentage := self.query_percentage_threshold
              validation_period := self.validation_period } }
        ∈ (self.run env git).1 ∧
      remoteCallCount (self.run env git).1 = 1) := by
  rcases Check.run_cases self env git with
    ⟨e, hgc2, hrun⟩ | ⟨client2, e, hgc2, hrd2, hrun⟩ |
    ⟨client2, s2, hgc2, hrd2, hbr⟩
  · rw [hgc] at hgc2; cases hgc2
  · rw [hgc] at hgc2; cases hgc2
    rw [hrd] at hrd2; cases hrd2
  · rw [hgc] at hgc2; cases hgc2
    rw [hrd] at hrd2; cases hrd2
    rcases hbr with ⟨ha, hrun⟩ | ⟨ha, hrun⟩
    · constructor
      · intro hfalse; rw [ha] at hfalse; cases hfalse
      · intro _
        rw [hrun]
        exact ⟨by simp [Check.asyncInput],
          by simp [remoteCallCount, Event.isRemoteCall]⟩
    · constructor
      · intro _
        rw [hrun]
        exact ⟨by simp [Check.syncInput],
          by simp [remoteCallCount, Event.isRemoteCall]⟩
      · intro htrue; rw [ha] at htrue; cases htrue

/-- Witness for C6: the end-to-end scenario of the spec: graph
my-graph@prod, subgraph accounts, schema text of one Account type,
count threshold 100, no percentage, no window, synchronous mode: the
trace carries one synchronous call with exactly those fields. -/
theorem check_run_payload_passthrough_witness :
    Event.syncCall
      { graph_ref := ⟨"my-graph", "prod"⟩,
        proposed_schema := "type Account \x7b id: ID! \x7d",
        subgraph := "accounts",
        git_context := ⟨none, none, none, none⟩,
        config :=
          { query_count_threshold := some 100
            query_count_threshold_percentage := none
            validation_period := none } }
      ∈ (Check.run
        ⟨⟨"my-graph", "prod"⟩, "accounts", "default", FileDescriptorType.stdin,
          some 100, none, none, false⟩
        ⟨fun _ => Except.ok ⟨"client"⟩,
          fun _ => Except.ok "type Account \x7b id: ID! \x7d",
          fun _ _ => Except.ok ⟨"ok"⟩, fun _ _ => Except.ok ⟨"wf"⟩⟩
        ⟨none, none, none, none⟩).1 ∧
    remoteCallCount
      ((Check.run
        ⟨⟨"my-graph", "prod"⟩, "accounts", "default", FileDescriptorType.stdin,
          some 100, none, none, false⟩
        ⟨fun _ => Except.ok ⟨"client"⟩,
          fun _ => Except.ok "type Account \x7b id: ID! \x7d",
          fun _ _ => Except.ok ⟨"ok"⟩, fun _ _ => Except.ok ⟨"wf"⟩⟩
        ⟨none, none, none, none⟩).1) = 1 :=
  (check_run_payload_passthrough
    ⟨⟨"my-graph", "prod"⟩, "accounts", "default", FileDescriptorType.stdin,
      some 100, none, none, false⟩
    ⟨fun _ => Except.ok ⟨"client"⟩,
      fun _ => Except.ok "type Account \x7b id: ID! \x7d",
      fun _ _ => Except.ok ⟨"ok"⟩, fun _ _ => Except.ok ⟨"wf"⟩⟩
    ⟨none, none, none, none⟩ ⟨"client"⟩ "type Account \x7b id: ID! \x7d"
    rfl rfl).1 rfl

/-- Claim C7: every error arising in Check::run is the unchanged error
of the collaborator that produced it (client acquisition, schema
reading, or the dispatched remote call), with no retry; and there is
no partial success: every ok result wraps a complete response that the
dispatched remote operation returned. -/
theorem check_run_error_propagation (self : Check) (env : Env)
    (git : GitContext) :
    (∀ e, (self.run env git).2 = Except.error e →
      env.get_authenticated_client self.profile_name = Except.error e ∨
      (∃ client,
        env.get_authenticated_client self.profile_name = Except.ok client ∧
        env.read_file_descriptor self.schema = Except.error e) ∨
      (∃ client s,
        env.get_authenticated_client self.profile_name = Except.ok client ∧
        env.read_file_descriptor self.schema = Except.ok s ∧
        ((self.asynchronous = true ∧
          env.subgraph_async_check_run (self.asyncInput git s) client =
            Except.error e) ∨
         (self.asynchronous = false ∧
          env.subgraph_check_run (self.syncInput git s) client =
            Except.error e)))) ∧
    (∀ out, (self.run env git).2 = Except.ok out →
      ∃ client s,
        env.get_authenticated_client self.profile_name = Except.ok client ∧
        env.read_file_descriptor self.schema = Except.ok s ∧
        ((∃ r, out = RoverOutput.AsyncCheckResponse r ∧
          env.subgraph_async_check_run (self.asyncInput git s) client =
            Except.ok r) ∨
         (∃ r, out = RoverOutput.CheckResponse r ∧
          env.subgraph_check_run (self.syncInput git s) client =
            Except.ok r))) := by
  rcases Check.run_cases self env git with
    ⟨e, hgc, hrun⟩ | ⟨client, e, hgc, hrd, hrun⟩ | ⟨client, s, hgc, hrd, hbr⟩
  · constructor
    · intro e2 h2
      rw [hrun] at h2
      simp only [Except.error.injEq] at h2
      subst h2
      exact Or.inl hgc
    · intro out hout
      rw [hrun] at hout
      exact absurd hout (by simp)
  · constructor
    · intro e2 h2
      rw [hrun] at h2
      simp only [Except.error.injEq] at h2
      subst h2
      exact Or.inr (Or.inl ⟨client, hgc, hrd⟩)
    · intro out hout
      rw [hrun] at hout
      exact absurd hout (by simp)
  · rcases hbr with ⟨ha, hrun⟩ | ⟨ha, hrun⟩
    · constructor
      · intro e2 h2
        rw [hrun] at h2
        cases hc : env.subgraph_async_check_run (self.asyncInput git s) client with
        | error e3 =>
          rw [hc] at h2
          simp only [Except.map, Except.error.injEq] at h2
          subst h2
          exact Or.inr (Or.inr ⟨client, s, hgc, hrd, Or.inl ⟨ha, hc⟩⟩)
        | ok r =>
          rw [hc] at h2
          exact absurd h2 (by simp [Except.map])
      · intro out hout
        rw [hrun] at hout
        cases hc : env.subgraph_async_check_run (self.asyncInput git s) client with
        | error e3 =>
          rw [hc] at hout
          exact absurd hout (by simp [Except.map])
        | ok r =>
          rw [hc] at hout
          simp only [Except.map, Except.ok.injEq] at hout
          subst hout
          exact ⟨client, s, hgc, hrd, Or.inl ⟨r, rfl, hc⟩⟩
    · constructor
      · intro e2 h2
        rw [hrun] at h2
        cases hc : env.subgraph_check_run (self.syncInput git s) client with
        | error e3 =>
          rw [hc] at h2
          simp only [Except.map, Except.error.injEq] at h2
          subst h2
          exact Or.inr (Or.inr ⟨client, s, hgc, hrd, Or.inr ⟨ha, hc⟩⟩)
        | ok r =>
          rw [hc] at h2
          exact absurd h2 (by simp [Except.map])
      · intro out hout
        rw [hrun] at hout
        cases hc : env.subgraph_check_run (self.syncInput git s) client with
        | error e3 =>
          rw [hc] at hout
          exact absurd hout (by simp [Except.map])
        | ok r =>
          rw [hc] at hout
          simp only [Except.map, Except.ok.injEq] at hout
          subst hout
          exact ⟨client, s, hgc, hrd, Or.inr ⟨r, rfl, hc⟩⟩

/-- Witness for C7: a concrete invocation whose remote call fails with
a transport error propagates exactly that error, and the propagation
theorem locates it at the synchronous remote call. -/
theorem check_run_error_propagation_witness :
    Env.get_authenticated_client
      ⟨fun _ => Except.ok ⟨"client"⟩, fun _ => Except.ok "sdl",
        fun _ _ => Except.error (RoverError.transportError "boom"),
        fun _ _ => Except.ok ⟨"wf"⟩⟩ "default" =
      Except.error (RoverError.transportError "boom") ∨
    (∃ client,
      Env.get_authenticated_client
        ⟨fun _ => Except.ok ⟨"client"⟩, fun _ => Except.ok "sdl",
          fun _ _ => Except.error (RoverError.transportError "boom"),
          fun _ _ => Except.ok ⟨"wf"⟩⟩ "default" = Except.ok client ∧
      Env.read_file_descriptor
        ⟨fun _ => Except.ok ⟨"client"⟩, fun _ => Except.ok "sdl",
          fun _ _ => Except.error (RoverError.transportError "boom"),
          fun _ _ => Except.ok ⟨"wf"⟩⟩ FileDescriptorType.stdin =
        Except.error (RoverError.transportError "boom")) ∨
    (∃ client s,
      Env.get_authenticated_client
        ⟨fun _ => Except.ok ⟨"client"⟩, fun _ => Except.ok "sdl",
          fun _ _ => Except.error (RoverError.transportError "boom"),
          fun _ _ => Except.ok ⟨"wf"⟩⟩ "default" = Except.ok client ∧
      Env.read_file_descriptor
        ⟨fun _ => Except.ok ⟨"client"⟩, fun _ => Except.ok "sdl",
          fun _ _ => Except.error (RoverError.transportError "boom"),
          fun _ _ => Except.ok ⟨"wf"⟩⟩ FileDescriptorType.stdin =
        Except.ok s ∧
      ((Check.asynchronous
          ⟨⟨"g", "v"⟩, "sub", "default", FileDescriptorType.stdin,
            none, none, none, false⟩ = true ∧
        Env.subgraph_async_check_run
          ⟨fun _ => Except.ok ⟨"client"⟩, fun _ => Except.ok "sdl",
            fun _ _ => Except.error (RoverError.transportError "boom"),
            fun _ _ => Except.ok ⟨"wf"⟩⟩
          (Check.asyncInput
            ⟨⟨"g", "v"⟩, "sub", "default", FileDescriptorType.stdin,
              none, none, none, false⟩ ⟨none, none, none, none⟩ s) client =
          Except.error (RoverError.transportError "boom")) ∨
       (Check.asynchronous
          ⟨⟨"g", "v"⟩, "sub", "default", FileDescriptorType.stdin,
            none, none, none, false⟩ = false ∧
        Env.subgraph_check_run
          ⟨fun _ => Except.ok ⟨"client"⟩, fun _ => Except.ok "sdl",
            fun _ _ => Except.error (RoverError.transportError "boom"),
            fun _ _ => Except.ok ⟨"wf"⟩⟩
          (Check.syncInput
            ⟨⟨"g", "v"⟩, "sub", "default", FileDescriptorType.stdin,
              none, none, none, false⟩ ⟨none, none, none, none⟩ s) client =
          Except.error (RoverError.transportError "boom")))) :=
  (check_run_error_propagation
    ⟨⟨"g", "v"⟩, "sub", "default", FileDescriptorType.stdin,
      none, none, none, false⟩
    ⟨fun _ => Except.ok ⟨"client"⟩, fun _ => Except.ok "sdl",
      fun _ _ => Except.error (RoverError.transportError "boom"),
      fun _ _ => Except.ok ⟨"wf"⟩⟩
    ⟨none, none, none, none⟩).1 (RoverError.transportError "boom") rfl

/-- Claim C8: Check::run writes no user-facing output except one
diagnostic line: either the run stops before dispatch, with no output
and no remote call, or the trace is exactly client acquisition, schema
resolution, the single diagnostic line, then the remote call; so the
one line is emitted before dispatch and nothing is formatted after the
remote call returns. -/
theorem check_run_single_diagnostic (self : Check) (env : Env)
    (git : GitContext) :
    ((self.run env git).1.filter Event.isEprint = [] ∧
      remoteCallCount (self.run env git).1 = 0) ∨
    (∃ e, Event.isRemoteCall e = true ∧
      (self.run env git).1 =
        [Event.getClient self.profile_name, Event.readSchema self.schema,
          Event.eprintLine self.diagnosticLine, e]) := by
  rcases Check.run_cases self env git with
    ⟨e, hgc, hrun⟩ | ⟨client, e, hgc, hrd, hrun⟩ | ⟨client, s, hgc, hrd, hbr⟩
  · rw [hrun]
    exact Or.inl (by simp [remoteCallCount, Event.isRemoteCall, Event.isEprint])
  · rw [hrun]
    exact Or.inl (by simp [remoteCallCount, Event.isRemoteCall, Event.isEprint])
  · rcases hbr with ⟨ha, hrun⟩ | ⟨ha, hrun⟩
    · exact Or.inr ⟨Event.asyncCall (self.asyncInput git s), rfl, by rw [hrun]⟩
    · exact Or.inr ⟨Event.syncCall (self.syncInput git s), rfl, by rw [hrun]⟩

/-- Claim C9: if authenticated-client acquisition fails, Check::run
returns that error with client acquisition as the only observable
effect: the schema source is never resolved, the diagnostic line is
not printed, and no remote call occurs. -/
theorem check_run_auth_failure_first (self : Check) (env : Env)
    (git : GitContext) (e : RoverError)
    (hgc : env.get_authenticated_client self.profile_name = Except.error e) :
    self.run env git = ([Event.getClient self.profile_name], Except.error e) ∧
    (∀ fd, Event.readSchema fd ∉ (self.run env git).1) ∧
    (self.run env git).1.filter Event.isEprint = [] ∧
    remoteCallCount (self.run env git).1 = 0 := by
  have h : self.run env git =
      ([Event.getClient self.profile_name], Except.error e) := by
    simp [Check.run, hgc]
  refine ⟨h, ?_, ?_, ?_⟩
  · intro fd
    rw [h]
    simp
  · rw [h]
    simp [Event.isEprint]
  · rw [h]
    simp [remoteCallCount, Event.isRemoteCall]

/-- Witness for C9: a concrete invocation whose client acquisition
fails returns the auth error with an empty effect trace apart from the
acquisition attempt. -/
theorem check_run_auth_failure_first_witness :
    Check.run
      ⟨⟨"g", "v"⟩, "sub", "default", FileDescriptorType.stdin,
        none, none, none, true⟩
      ⟨fun _ => Except.error (RoverError.authError "bad profile"),
        fun _ => Except.ok "sdl",
        fun _ _ => Except.ok ⟨"ok"⟩, fun _ _ => Except.ok ⟨"wf"⟩⟩
      ⟨none, none, none, none⟩ =
      ([Event.getClient "default"],
        Except.error (RoverError.authError "bad profile")) ∧
    (∀ fd, Event.readSchema fd ∉
      (Check.run
        ⟨⟨"g", "v"⟩, "sub", "default", FileDescriptorType.stdin,
          none, none, none, true⟩
        ⟨fun _ => Except.error (RoverError.authError "bad profile"),
          fun _ => Except.ok "sdl",
          fun _ _ => Except.ok ⟨"ok"⟩, fun _ _ => Except.ok ⟨"wf"⟩⟩
        ⟨none, none, none, none⟩).1) ∧
    (Check.run
      ⟨⟨"g", "v"⟩, "sub", "default", FileDescriptorType.stdin,
        none, none, none, true⟩
      ⟨fun _ => Except.error (RoverError.authError "bad profile"),
        fun _ => Except.ok "sdl",
        fun _ _ => Except.ok ⟨"ok"⟩, fun _ _ => Except.ok ⟨"wf"⟩⟩
      ⟨none, none, none, none⟩).1.filter Event.isEprint = [] ∧
    remoteCallCount
      ((Check.run
        ⟨⟨"g", "v"⟩, "sub", "default", FileDescriptorType.stdin,
          none, none, none, true⟩
        ⟨fun _ => Except.error (RoverError.authError "bad profile"),
          fun _ => Except.ok "sdl",
          fun _ _ => Except.ok ⟨"ok"⟩, fun _ _ => Except.ok ⟨"wf"⟩⟩
        ⟨none, none, none, none⟩).1) = 0 :=
  check_run_auth_failure_first
    ⟨⟨"g", "v"⟩, "sub", "default", FileDescriptorType.stdin,
      none, none, none, true⟩
    ⟨fun _ => Except.error (RoverError.authError "bad profile"),
      fun _ => Except.ok "sdl",
      fun _ _ => Except.ok ⟨"ok"⟩, fun _ _ => Except.ok ⟨"wf"⟩⟩
    ⟨none, none, none, none⟩ (RoverError.authError "bad profile") rfl

/-- Claim C10: the asynchronous flag influences only which remote
operation is invoked and which outcome variant wraps the result: for
two invocations identical except for the flag, the payload recorded at
the remote call (graph reference, subgraph, proposed schema, git
context, and the full check configuration) is the same singleton in
both modes. -/
theorem check_run_async_flag_payload_invariance (self : Check) (env : Env)
    (git : GitContext) (client : StudioClient) (s : String)
    (hgc : env.get_authenticated_client self.profile_name = Except.ok client)
    (hrd : env.read_file_descriptor self.schema = Except.ok s) :
    (Check.run { self with asynchronous := true } env git).1.filterMap
        Event.callPayload =
      [⟨self.graph, self.subgraph, s, git,
        ⟨self.query_count_threshold, self.query_percentage_threshold,
          self.validation_period⟩⟩] ∧
    (Check.run { self with asynchronous := false } env git).1.filterMap
        Event.callPayload =
      [⟨self.graph, self.subgraph, s, git,
        ⟨self.query_count_threshold, self.query_percentage_threshold,
          self.validation_period⟩⟩] := by
  constructor
  · cases hc : env.subgraph_async_check_run
        (Check.asyncInput { self with asynchronous := true } git s) client with
    | error e =>
      simp only [Check.asyncInput] at hc
      simp [Check.run, hgc, hrd, hc, Event.callPayload, Check.asyncInput]
    | ok r =>
      simp only [Check.asyncInput] at hc
      simp [Check.run, hgc, hrd, hc, Event.callPayload, Check.asyncInput]
  · cases hc : env.subgraph_check_run
        (Check.syncInput { self with asynchronous := false } git s) client with
    | error e =>
      simp only [Check.syncInput] at hc
      simp [Check.run, hgc, hrd, hc, Event.callPayload, Check.syncInput]
    | ok r =>
      simp only [Check.syncInput] at hc
      simp [Check.run, hgc, hrd, hc, Event.callPayload, Check.syncInput]

/-- Witness for C10: on a concrete pair of invocations differing only
in the asynchronous flag, both payload sequences are the same
singleton. -/
theorem check_run_async_flag_payload_invariance_witness :
    (Check.run
      ⟨⟨"g", "v"⟩, "sub", "default", FileDescriptorType.stdin,
        some 7, none, none, true⟩
      ⟨fun _ => Except.ok ⟨"client"⟩, fun _ => Except.ok "sdl",
        fun _ _ => Except.ok ⟨"ok"⟩, fun _ _ => Except.ok ⟨"wf"⟩⟩
      ⟨none, none, none, none⟩).1.filterMap Event.callPayload =
      [⟨⟨"g", "v"⟩, "sub", "sdl", ⟨none, none, none, none⟩,
        ⟨some 7, none, none⟩⟩] ∧
    (Check.run
      ⟨⟨"g", "v"⟩, "sub", "default", FileDescriptorType.stdin,
        some 7, none, none, false⟩
      ⟨fun _ => Except.ok ⟨"client"⟩, fun _ => Except.ok "sdl",
        fun _ _ => Except.ok ⟨"ok"⟩, fun _ _ => Except.ok ⟨"wf"⟩⟩
      ⟨none, none, none, none⟩).1.filterMap Event.callPayload =
      [⟨⟨"g", "v"⟩, "sub", "sdl", ⟨none, none, none, none⟩,
        ⟨some 7, none, none⟩⟩] :=
  check_run_async_flag_payload_invariance
    ⟨⟨"g", "v"⟩, "sub", "default", FileDescriptorType.stdin,
      some 7, none, none, true⟩
    ⟨fun _ => Except.ok ⟨"client"⟩, fun _ => Except.ok "sdl",
      fun _ _ => Except.ok ⟨"ok"⟩, fun _ _ => Except.ok ⟨"wf"⟩⟩
    ⟨none, none, none, none⟩ ⟨"client"⟩ "sdl" rfl rfl

end Rover
